import Mathlib

/-!
Verification of the Articles Resource Service (FastAPI + SQLAlchemy CRUD layer).

Shallow embedding conventions:
* UTC instants are modelled as natural numbers counting seconds since the
  epoch; `datetime.now(UTC)` becomes an explicit instant argument, one per
  textual call site (the create handler reads the clock twice, the update
  handlers once).  `timedelta(days=d)` is `d * 86400` seconds and
  `timedelta(hours=24)` is `86400` seconds.
* The SQLAlchemy session is a `DB` value: the list of stored rows plus the
  next value of the auto-incremented primary key.  `db.commit()` may fail;
  a failing commit is injected as `commitErr = some msg`, in which case the
  handler's `except Exception` clause rolls the session back (the returned
  state is the entry state) and wraps the message in a 500.
* `HTTPException(status_code, detail)` is a structure; handlers return
  `Except HTTPException result × DB` (the session outlives the request).
* Pydantic's `exclude_unset` view of a request body is `ArticlesPartial`
  (every field optional); a fully validated `ArticlesCreate` has every
  field present.  Floats (`input_cost` etc.) are modelled as rationals:
  the service only stores and compares them, it never computes with them.
-/

namespace ArticlesService

/-- A stored row of the `articles` table (SQLAlchemy model `Articles`). -/
structure ArticleRecord where
  article_id : Nat
  title : String
  link : String
  summary : String
  reasons : String
  tags : String
  relevancy_score : Int
  urgency_score : Int
  overall_score : Int
  input_cost : Rat
  output_cost : Rat
  total_cost : Rat
  model : String
  create_date : Nat
  update_date : Nat
deriving DecidableEq, Repr

/-- Pydantic schema `ArticlesCreate`: twelve required data fields (no id, no
timestamps). -/
structure ArticlesCreate where
  title : String
  link : String
  summary : String
  reasons : String
  tags : String
  relevancy_score : Int
  urgency_score : Int
  overall_score : Int
  input_cost : Rat
  output_cost : Rat
  total_cost : Rat
  model : String
deriving DecidableEq, Repr

/-- A raw request body over the `ArticlesCreate` field set, before
validation: each field is either supplied (`some`) or omitted (`none`).
This is also the `model_dump(exclude_unset=True)` view of a validated
pydantic object. -/
structure ArticlesPartial where
  title : Option String := none
  link : Option String := none
  summary : Option String := none
  reasons : Option String := none
  tags : Option String := none
  relevancy_score : Option Int := none
  urgency_score : Option Int := none
  overall_score : Option Int := none
  input_cost : Option Rat := none
  output_cost : Option Rat := none
  total_cost : Option Rat := none
  model : Option String := none
deriving DecidableEq, Repr

/-- Modelled from the spec: the `ArticlesSearch` pydantic schema is imported
by `src/api/articles.py` from `models.articles` but its definition is not in
the provided sources.  Per spec section 4.7 it is "a payload whose fields are
all optional (search criteria)", each present field contributing one match
condition, with `create_date` an optional explicit time criterion. -/
structure ArticlesSearch where
  title : Option String := none
  link : Option String := none
  summary : Option String := none
  reasons : Option String := none
  tags : Option String := none
  relevancy_score : Option Int := none
  urgency_score : Option Int := none
  overall_score : Option Int := none
  input_cost : Option Rat := none
  output_cost : Option Rat := none
  total_cost : Option Rat := none
  model : Option String := none
  create_date : Option Nat := none
deriving DecidableEq, Repr

/-- fastapi's `HTTPException`: a status code plus a human-readable detail. -/
structure HTTPException where
  status_code : Nat
  detail : String
deriving DecidableEq, Repr

/-- The persisted state seen through one SQLAlchemy session: the rows of
the `articles` table and the next auto-increment value of the primary key. -/
structure DB where
  records : List ArticleRecord
  nextId : Nat
deriving DecidableEq, Repr

/-- `db.query(Articles).filter(Articles.article_id == article_id).first()`. -/
def findById (db : DB) (article_id : Nat) : Option ArticleRecord :=
  db.records.find? (fun r => r.article_id == article_id)

/-- In-place mutation of the row returned by `.first()`: replace the first
row with the matching id. -/
def replaceFirstById (l : List ArticleRecord) (article_id : Nat)
    (r' : ArticleRecord) : List ArticleRecord :=
  match l with
  | [] => []
  | r :: rs =>
    if r.article_id == article_id then r' :: rs
    else r :: replaceFirstById rs article_id r'

/-- `db.delete(record)` for the row returned by `.first()`: remove the first
row with the matching id. -/
def removeFirstById (l : List ArticleRecord) (article_id : Nat) :
    List ArticleRecord :=
  match l with
  | [] => []
  | r :: rs =>
    if r.article_id == article_id then rs
    else r :: removeFirstById rs article_id

/-- `Articles(**data)` for a full `ArticlesCreate` dump, followed by the two
server-side clock reads of the create handler:
`new_record.create_date = datetime.now(UTC)` (instant `t1`) and
`new_record.update_date = datetime.now(UTC)` (instant `t2`); the primary key
is assigned by the database on insert. -/
def mkArticle (id : Nat) (p : ArticlesCreate) (t1 t2 : Nat) : ArticleRecord :=
  { article_id := id
    title := p.title
    link := p.link
    summary := p.summary
    reasons := p.reasons
    tags := p.tags
    relevancy_score := p.relevancy_score
    urgency_score := p.urgency_score
    overall_score := p.overall_score
    input_cost := p.input_cost
    output_cost := p.output_cost
    total_cost := p.total_cost
    model := p.model
    create_date := t1
    update_date := t2 }

/-- POST `/api/v1/articles` (`create_record`).  `t1` and `t2` are the two
successive `datetime.now(UTC)` reads on lines 125 and 126; `commitErr`
injects a persistence failure at `db.commit()`.  On failure the handler
rolls back (state unchanged) and wraps the message into a 500. -/
def create_record (db : DB) (articles_data : ArticlesCreate) (t1 t2 : Nat)
    (commitErr : Option String) : Except HTTPException ArticleRecord × DB :=
  let new_record := mkArticle db.nextId articles_data t1 t2
  match commitErr with
  | some msg => (.error ⟨500, "Internal server error: " ++ msg⟩, db)
  | none =>
    (.ok new_record,
      { records := db.records ++ [new_record], nextId := db.nextId + 1 })

/-- GET `/api/v1/articles/{article_id}` (`get_articles_by_id`): look the row
up; 404 with the identifier in the message when absent.  Read-only. -/
def get_articles_by_id (db : DB) (article_id : Nat) :
    Except HTTPException ArticleRecord :=
  match findById db article_id with
  | none =>
    .error ⟨404, "articles with id " ++ toString article_id ++ " not found"⟩
  | some record => .ok record

/-- The value of one column of a row, for ordering and equality tests. -/
inductive FieldValue where
  | natV (n : Nat)
  | intV (i : Int)
  | ratV (q : Rat)
  | strV (s : String)
deriving DecidableEq, Repr

/-- SQL ordering on column values.  Only same-column (hence
same-constructor) comparisons ever arise. -/
def fieldLE : FieldValue → FieldValue → Bool
  | .natV a, .natV b => a ≤ b
  | .intV a, .intV b => decide (a ≤ b)
  | .ratV a, .ratV b => decide (a ≤ b)
  | .strV a, .strV b => !(decide (b < a))
  | _, _ => true

/-- The mapped columns of the `Articles` model: the names iterated by the
serializer, read by `getField`, and the only attributes for which
`order_by(asc/desc(getattr(Articles, name)))` succeeds.  Note that
`hasattr(Articles, name)` is true for strictly more names than these (the
class also carries `metadata`, `registry`, `__tablename__` and the other
inherited class attributes), which is why the list handler takes the
attribute predicate as a parameter rather than reusing this list. -/
def articlesColumns : List String :=
  ["article_id", "title", "link", "summary", "reasons", "tags",
   "relevancy_score", "urgency_score", "overall_score", "input_cost",
   "output_cost", "total_cost", "model", "create_date", "update_date"]

/-- Some non-column attributes of the `Articles` class: `DeclarativeBase`
supplies `metadata` and `registry`, the class itself `__tablename__` and
`__repr__`, and Python adds `__init__`, `__doc__`, `__module__` and the
like.  The real class inherits further dunder attributes of the same
non-column kind; this list only needs to contain the names this
development instantiates, because the general theorems quantify over the
attribute predicate instead of fixing it. -/
def articlesNonColumnAttrs : List String :=
  ["metadata", "registry", "__tablename__", "__table__", "__init__",
   "__repr__", "__module__", "__doc__", "__dict__", "__weakref__"]

/-- A concrete instance of `hasattr(Articles, name)` used by
counterexamples and witnesses: the mapped columns together with the listed
non-column class attributes. -/
def articlesHasattr (name : String) : Bool :=
  articlesColumns.contains name || articlesNonColumnAttrs.contains name

/-- `getattr(record, name)` for a column name. -/
def getField (r : ArticleRecord) (name : String) : FieldValue :=
  if name = "article_id" then .natV r.article_id
  else if name = "title" then .strV r.title
  else if name = "link" then .strV r.link
  else if name = "summary" then .strV r.summary
  else if name = "reasons" then .strV r.reasons
  else if name = "tags" then .strV r.tags
  else if name = "relevancy_score" then .intV r.relevancy_score
  else if name = "urgency_score" then .intV r.urgency_score
  else if name = "overall_score" then .intV r.overall_score
  else if name = "input_cost" then .ratV r.input_cost
  else if name = "output_cost" then .ratV r.output_cost
  else if name = "total_cost" then .ratV r.total_cost
  else if name = "model" then .strV r.model
  else if name = "create_date" then .natV r.create_date
  else .natV r.update_date

/-- `query.order_by(asc(column))`: a stable sort with the column's values
ascending. -/
def sortAscBy (name : String) (l : List ArticleRecord) : List ArticleRecord :=
  List.insertionSort
    (fun a b => fieldLE (getField a name) (getField b name) = true) l

/-- `query.order_by(desc(column))`: a stable sort with the column's values
descending. -/
def sortDescBy (name : String) (l : List ArticleRecord) : List ArticleRecord :=
  List.insertionSort
    (fun a b => fieldLE (getField b name) (getField a name) = true) l

/-- The filtered-then-sorted row set of the list endpoint, before
pagination: the optional `days_back` cutoff filter
(`create_date >= now - timedelta(days=days_back)`), then the requested
ordering (default: `create_date` descending).  Only called with a valid
`sort_by`. -/
def daysFilter (db : DB) (days_back : Option Nat) (now : Nat) :
    List ArticleRecord :=
  match days_back with
  | none => db.records
  | some d => db.records.filter (fun r => now - d * 86400 ≤ r.create_date)

/-- The ordering chosen by the list handler: `create_date` descending when
`sort_by` is omitted, otherwise the named column, ascending exactly when
`sort_order == "asc"`. -/
def listFilteredSorted (db : DB) (days_back : Option Nat)
    (sort_by : Option String) (sort_order : Option String) (now : Nat) :
    List ArticleRecord :=
  match sort_by with
  | none => sortDescBy "create_date" (daysFilter db days_back now)
  | some col =>
    if sort_order == some "asc" then sortAscBy col (daysFilter db days_back now)
    else sortDescBy col (daysFilter db days_back now)

/-- GET `/api/v1/articles` (`list_articles`).  Fastapi's `Query` validation
(`page ≥ 1`, `1 ≤ limit ≤ 100`, `sort_order` one of asc/desc) happens before
the handler.  `hasattrA` is `hasattr(Articles, name)`: the Python class
carries an open-ended inherited attribute set, so the embedding takes the
predicate as a parameter (with `articlesColumns` always among the
attributes).  A `sort_by` that is not an attribute raises the 400 inside
the `try` and is re-raised unchanged by `except HTTPException`.  A
`sort_by` naming an attribute proceeds to `order_by`: for a mapped column
this succeeds and the filtered+sorted set is sliced at
`offset = (page - 1) * limit` with `limit` rows; for any non-column
attribute (a `MetaData`, a registry, a method, a class-level string) the
`desc(...)`/`order_by`/execution step raises inside the `try` and the
generic `except Exception` wraps the exception text (`emsg`) into a 500.
Read-only. -/
def list_articles (hasattrA : String → Bool) (emsg : String) (db : DB)
    (page limit : Nat) (days_back : Option Nat)
    (sort_by : Option String) (sort_order : Option String) (now : Nat) :
    Except HTTPException (List ArticleRecord) :=
  match sort_by with
  | some col =>
    if hasattrA col then
      if articlesColumns.contains col then
        .ok (((listFilteredSorted db days_back (some col) sort_order now).drop
          ((page - 1) * limit)).take limit)
      else .error ⟨500, "Internal server error: " ++ emsg⟩
    else .error ⟨400, "Invalid sort_by field: " ++ col⟩
  | none =>
    .ok (((listFilteredSorted db days_back none sort_order now).drop
      ((page - 1) * limit)).take limit)

/-- `for key, value in data.items(): setattr(record, key, value)` where
`data = articles_data.model_dump(exclude_unset=True)`: every supplied field
overwrites the stored value, every omitted field is left alone.  The field
set of `ArticlesCreate` contains neither `article_id` nor the timestamps. -/
def applyPartial (d : ArticlesPartial) (r : ArticleRecord) : ArticleRecord :=
  { r with
    title := d.title.getD r.title
    link := d.link.getD r.link
    summary := d.summary.getD r.summary
    reasons := d.reasons.getD r.reasons
    tags := d.tags.getD r.tags
    relevancy_score := d.relevancy_score.getD r.relevancy_score
    urgency_score := d.urgency_score.getD r.urgency_score
    overall_score := d.overall_score.getD r.overall_score
    input_cost := d.input_cost.getD r.input_cost
    output_cost := d.output_cost.getD r.output_cost
    total_cost := d.total_cost.getD r.total_cost
    model := d.model.getD r.model }

/-- `setattr` over `model_dump(exclude_unset=False)`: all twelve data
fields overwrite the stored values. -/
def applyFull (p : ArticlesCreate) (r : ArticleRecord) : ArticleRecord :=
  { r with
    title := p.title
    link := p.link
    summary := p.summary
    reasons := p.reasons
    tags := p.tags
    relevancy_score := p.relevancy_score
    urgency_score := p.urgency_score
    overall_score := p.overall_score
    input_cost := p.input_cost
    output_cost := p.output_cost
    total_cost := p.total_cost
    model := p.model }

/-- The row as mutated by the full-update handler: all data fields from
the payload, `update_date` reset to `now`. -/
def fullUpdated (p : ArticlesCreate) (r : ArticleRecord) (now : Nat) :
    ArticleRecord :=
  { applyFull p r with update_date := now }

/-- The row as mutated by the partial-update handler: the supplied fields
from the payload, `update_date` reset to `now`. -/
def partialUpdated (d : ArticlesPartial) (r : ArticleRecord) (now : Nat) :
    ArticleRecord :=
  { applyPartial d r with update_date := now }

/-- PUT `/api/v1/articles/{id}` (`update_articles_full`): find the row (404
if absent, session untouched), overwrite every data field from the full
dump, set `update_date` to the single `datetime.now(UTC)` read (`now`),
commit.  A commit failure rolls back and is wrapped into a 500. -/
def update_articles_full (db : DB) (article_id : Nat)
    (articles_data : ArticlesCreate) (now : Nat) (commitErr : Option String) :
    Except HTTPException ArticleRecord × DB :=
  match findById db article_id with
  | none =>
    (.error ⟨404, "articles with id " ++ toString article_id ++ " not found"⟩,
      db)
  | some record =>
    let updated := fullUpdated articles_data record now
    match commitErr with
    | some msg => (.error ⟨500, "Internal server error: " ++ msg⟩, db)
    | none =>
      (.ok updated,
        { db with records := replaceFirstById db.records article_id updated })

/-- PATCH `/api/v1/articles/{id}` handler (`update_articles_partial`),
acting on the `exclude_unset` view of the validated body: find the row (404
if absent), overwrite exactly the supplied fields, set `update_date` to the
single `datetime.now(UTC)` read, commit (rollback + 500 on failure). -/
def update_articles_partial (db : DB) (article_id : Nat)
    (articles_data : ArticlesPartial) (now : Nat) (commitErr : Option String) :
    Except HTTPException ArticleRecord × DB :=
  match findById db article_id with
  | none =>
    (.error ⟨404, "articles with id " ++ toString article_id ++ " not found"⟩,
      db)
  | some record =>
    let updated := partialUpdated articles_data record now
    match commitErr with
    | some msg => (.error ⟨500, "Internal server error: " ++ msg⟩, db)
    | none =>
      (.ok updated,
        { db with records := replaceFirstById db.records article_id updated })

/-- Pydantic validation of a request body against `ArticlesCreate`: it
succeeds exactly when all twelve required data fields are supplied. -/
def validateArticlesCreate (b : ArticlesPartial) : Option ArticlesCreate :=
  b.title.bind fun t =>
  b.link.bind fun li =>
  b.summary.bind fun s =>
  b.reasons.bind fun re =>
  b.tags.bind fun ta =>
  b.relevancy_score.bind fun rs =>
  b.urgency_score.bind fun us =>
  b.overall_score.bind fun os =>
  b.input_cost.bind fun ic =>
  b.output_cost.bind fun oc =>
  b.total_cost.bind fun tc =>
  b.model.bind fun mo =>
  some ⟨t, li, s, re, ta, rs, us, os, ic, oc, tc, mo⟩

/-- The PATCH endpoint as deployed: the body is declared as
`articles_data: ArticlesCreate`, so fastapi validates it against the
all-fields-required schema (422 on failure) before the handler runs; a body
that validates has every field marked as set, so the handler's
`exclude_unset` dump is the body itself. -/
def update_articles_partial_endpoint (db : DB) (article_id : Nat)
    (body : ArticlesPartial) (now : Nat) (commitErr : Option String) :
    Except HTTPException ArticleRecord × DB :=
  match validateArticlesCreate body with
  | none => (.error ⟨422, "Unprocessable Entity"⟩, db)
  | some _ => update_articles_partial db article_id body now commitErr

/-- DELETE `/api/v1/articles/{id}` (`delete_articles`): find the row (404 if
absent), remove it, commit, and return the confirmation message naming the
identifier.  A commit failure rolls back and is wrapped into a 500. -/
def delete_articles (db : DB) (article_id : Nat)
    (commitErr : Option String) : Except HTTPException String × DB :=
  match findById db article_id with
  | none =>
    (.error ⟨404, "articles with id " ++ toString article_id ++ " not found"⟩,
      db)
  | some _ =>
    match commitErr with
    | some msg => (.error ⟨500, "Internal server error: " ++ msg⟩, db)
    | none =>
      (.ok ("articles with id " ++ toString article_id ++
        " deleted successfully"),
        { db with records := removeFirstById db.records article_id })

/-- `column.ilike(f"%{value}%")`: case-insensitive substring containment
(wildcard characters inside the value are not modelled). -/
def containsCI (hay needle : String) : Bool :=
  decide (needle.toLower.toList <:+: hay.toLower.toList)

/-- Does one stored row satisfy the conjunction `and_(*filters)` built by
the search handler for a given criteria payload?  When `create_date` is not
among the supplied fields the implicit trailing-24-hour condition
`create_date >= now - timedelta(hours=24)` is the first filter; every
supplied field then contributes one condition: substring containment for
`tags`, exact equality for every other column. -/
def optCond (o : Option α) (f : α → Bool) : Bool :=
  match o with
  | none => true
  | some v => f v

def matchesSearch (s : ArticlesSearch) (now : Nat) (r : ArticleRecord) :
    Bool :=
  (match s.create_date with
   | none => decide (now - 86400 ≤ r.create_date)
   | some v => r.create_date == v) &&
  optCond s.title (fun v => r.title == v) &&
  optCond s.link (fun v => r.link == v) &&
  optCond s.summary (fun v => r.summary == v) &&
  optCond s.reasons (fun v => r.reasons == v) &&
  optCond s.tags (fun v => containsCI r.tags v) &&
  optCond s.relevancy_score (fun v => r.relevancy_score == v) &&
  optCond s.urgency_score (fun v => r.urgency_score == v) &&
  optCond s.overall_score (fun v => r.overall_score == v) &&
  optCond s.input_cost (fun v => r.input_cost == v) &&
  optCond s.output_cost (fun v => r.output_cost == v) &&
  optCond s.total_cost (fun v => r.total_cost == v) &&
  optCond s.model (fun v => r.model == v)

/-- POST `/api/v1/articles/search` (`search_articles`): return every row
satisfying `and_(*filters)`.  Read-only; its only `except` clause wraps any
failure into a 500 (modelled by `queryErr`). -/
def search_articles (db : DB) (search_data : ArticlesSearch) (now : Nat)
    (queryErr : Option String) : Except HTTPException (List ArticleRecord) :=
  match queryErr with
  | some msg => .error ⟨500, "Internal server error: " ++ msg⟩
  | none => .ok (db.records.filter (matchesSearch search_data now))

/-- A sample valid create payload (after the example in the schema's doc
comment). -/
def samplePayload : ArticlesCreate :=
  { title := "AI Breakthrough in NLP", link := "https://example.com/ai",
    summary := "s", reasons := "r", tags := "AI,NLP,Research",
    relevancy_score := 9, urgency_score := 8, overall_score := 8,
    input_cost := 1, output_cost := 2, total_cost := 3, model := "gpt-4" }

/-- A sample stored row. -/
def rec1 : ArticleRecord :=
  { article_id := 1, title := "A", link := "http://x", summary := "s",
    reasons := "r", tags := "ai,ml", relevancy_score := 9, urgency_score := 5,
    overall_score := 7, input_cost := 1, output_cost := 2, total_cost := 3,
    model := "gpt-4", create_date := 100, update_date := 100 }

/-- A one-row database whose next primary-key value is 2. -/
def db1 : DB := { records := [rec1], nextId := 2 }

/-- `create_date <= update_date` holds for every stored row. -/
def timestampInv (db : DB) : Prop :=
  ∀ r ∈ db.records, r.create_date ≤ r.update_date

/-- The per-field match conditions of the search endpoint, stated
field by field: every supplied scalar field must be exactly equal, a
supplied `tags` value must be contained case-insensitively. -/
def suppliedFieldConds (s : ArticlesSearch) (r : ArticleRecord) : Prop :=
  (∀ v, s.title = some v → r.title = v) ∧
  (∀ v, s.link = some v → r.link = v) ∧
  (∀ v, s.summary = some v → r.summary = v) ∧
  (∀ v, s.reasons = some v → r.reasons = v) ∧
  (∀ v, s.tags = some v → containsCI r.tags v = true) ∧
  (∀ v, s.relevancy_score = some v → r.relevancy_score = v) ∧
  (∀ v, s.urgency_score = some v → r.urgency_score = v) ∧
  (∀ v, s.overall_score = some v → r.overall_score = v) ∧
  (∀ v, s.input_cost = some v → r.input_cost = v) ∧
  (∀ v, s.output_cost = some v → r.output_cost = v) ∧
  (∀ v, s.total_cost = some v → r.total_cost = v) ∧
  (∀ v, s.model = some v → r.model = v)

theorem optCond_eq_true {α : Type} (o : Option α) (f : α → Bool) :
    optCond o f = true ↔ ∀ v, o = some v → f v = true := by
  cases o <;> simp [optCond]

theorem mem_replaceFirstById {l : List ArticleRecord} {id : Nat}
    {u r : ArticleRecord} (h : r ∈ replaceFirstById l id u) :
    r = u ∨ r ∈ l := by
  induction l with
  | nil => simp [replaceFirstById] at h
  | cons a as ih =>
    by_cases hc : (a.article_id == id) = true
    · simp only [replaceFirstById, if_pos hc, List.mem_cons] at h
      rcases h with h | h
      · exact .inl h
      · exact .inr (List.mem_cons_of_mem _ h)
    · simp only [replaceFirstById, if_neg hc, List.mem_cons] at h
      rcases h with h | h
      · exact .inr (by simp [h])
      · rcases ih h with h' | h'
        · exact .inl h'
        · exact .inr (List.mem_cons_of_mem _ h')

theorem map_replaceFirstById {β : Type} (f : ArticleRecord → β)
    (l : List ArticleRecord) (id : Nat) (u : ArticleRecord)
    (h : ∀ r, l.find? (fun x => x.article_id == id) = some r → f u = f r) :
    (replaceFirstById l id u).map f = l.map f := by
  induction l with
  | nil => rfl
  | cons a as ih =>
    by_cases hc : (a.article_id == id) = true
    · have hfind : (a :: as).find? (fun x => x.article_id == id) = some a :=
        List.find?_cons_of_pos _ hc
      have hu := h a hfind
      simp [replaceFirstById, hc, hu]
    · have h' : ∀ r, as.find? (fun x => x.article_id == id) = some r →
          f u = f r := by
        intro r hr
        have hstep : List.find? (fun x => x.article_id == id) (a :: as) =
            List.find? (fun x => x.article_id == id) as :=
          List.find?_cons_of_neg _ hc
        exact h r (by rw [hstep]; exact hr)
      simp [replaceFirstById, hc, ih h']

theorem find?_removeFirstById {l : List ArticleRecord} {id : Nat}
    (hp : l.Pairwise (fun a b => a.article_id ≠ b.article_id)) :
    (removeFirstById l id).find? (fun x => x.article_id == id) = none := by
  induction l with
  | nil => rfl
  | cons a as ih =>
    rcases List.pairwise_cons.mp hp with ⟨ha, has⟩
    by_cases hc : (a.article_id == id) = true
    · have hid : a.article_id = id := by simpa using hc
      rw [removeFirstById]
      simp only [hc, if_true]
      rw [List.find?_eq_none]
      intro x hx
      have hne := ha x hx
      simp [← hid]
      exact fun hcon => hne hcon.symm
    · have hstep : List.find? (fun x => x.article_id == id)
          (a :: removeFirstById as id) =
          List.find? (fun x => x.article_id == id) (removeFirstById as id) :=
        List.find?_cons_of_neg _ hc
      rw [removeFirstById]
      simp only [if_neg hc]
      rw [hstep]
      exact ih has

/-- C1 counterexample: the create handler reads the clock twice (lines 125
and 126 assign `create_date` and `update_date` from two separate
`datetime.now(UTC)` calls); on a run where the second read is one tick
after the first, the returned record has `create_date ≠ update_date`,
refuting the claim that the two are always equal. -/
theorem create_counterexample_c1 :
    (create_record { records := [], nextId := 1 } samplePayload 0 1 none).1 =
      .ok (mkArticle 1 samplePayload 0 1) ∧
    (mkArticle 1 samplePayload 0 1).create_date ≠
      (mkArticle 1 samplePayload 0 1).update_date := by
  exact ⟨rfl, by decide⟩

/-- C1 amended: for every valid create payload the returned record has
server-assigned timestamps `create_date = t1` and `update_date = t2` (the
two successive clock reads, so `create_date ≤ update_date`, with equality
exactly when the reads coincide) and a freshly assigned `article_id`
distinct from every stored row's id; the id-uniqueness bound is
preserved. -/
theorem create_timestamps_fresh_id_c1 (db : DB) (p : ArticlesCreate)
    (t1 t2 : Nat) (hmono : t1 ≤ t2)
    (hids : ∀ r ∈ db.records, r.article_id < db.nextId) :
    (create_record db p t1 t2 none).1 = .ok (mkArticle db.nextId p t1 t2) ∧
    (mkArticle db.nextId p t1 t2).create_date = t1 ∧
    (mkArticle db.nextId p t1 t2).update_date = t2 ∧
    (mkArticle db.nextId p t1 t2).create_date ≤
      (mkArticle db.nextId p t1 t2).update_date ∧
    (∀ r ∈ db.records,
      r.article_id ≠ (mkArticle db.nextId p t1 t2).article_id) ∧
    (create_record db p t1 t2 none).2.records =
      db.records ++ [mkArticle db.nextId p t1 t2] ∧
    (∀ r ∈ (create_record db p t1 t2 none).2.records,
      r.article_id < (create_record db p t1 t2 none).2.nextId) := by
  refine ⟨rfl, rfl, rfl, hmono, ?_, rfl, ?_⟩
  · intro r hr
    exact Nat.ne_of_lt (hids r hr)
  · intro r hr
    simp only [create_record, mkArticle, List.mem_append,
      List.mem_singleton] at hr
    rcases hr with hr | hr
    · exact Nat.lt_succ_of_lt (hids r hr)
    · subst hr
      exact Nat.lt_succ_self _

theorem create_timestamps_fresh_id_c1_witness :
    (create_record db1 samplePayload 5 5 none).1 =
      .ok (mkArticle db1.nextId samplePayload 5 5) ∧
    (mkArticle db1.nextId samplePayload 5 5).create_date = 5 ∧
    (mkArticle db1.nextId samplePayload 5 5).update_date = 5 ∧
    (mkArticle db1.nextId samplePayload 5 5).create_date ≤
      (mkArticle db1.nextId samplePayload 5 5).update_date ∧
    (∀ r ∈ db1.records,
      r.article_id ≠ (mkArticle db1.nextId samplePayload 5 5).article_id) ∧
    (create_record db1 samplePayload 5 5 none).2.records =
      db1.records ++ [mkArticle db1.nextId samplePayload 5 5] ∧
    (∀ r ∈ (create_record db1 samplePayload 5 5 none).2.records,
      r.article_id < (create_record db1 samplePayload 5 5 none).2.nextId) :=
  create_timestamps_fresh_id_c1 db1 samplePayload 5 5 (by decide) (by decide)

/-- C10: the PATCH endpoint declares its body as `ArticlesCreate`, the
all-fields-required create schema, so every body omitting a data field is
rejected by validation before the handler runs and storage is untouched. -/
theorem patch_schema_rejects_partial_c10 (db : DB) (id : Nat)
    (b : ArticlesPartial) (now : Nat) (ce : Option String)
    (h : b.title = none ∨ b.link = none ∨ b.summary = none ∨
      b.reasons = none ∨ b.tags = none ∨ b.relevancy_score = none ∨
      b.urgency_score = none ∨ b.overall_score = none ∨
      b.input_cost = none ∨ b.output_cost = none ∨ b.total_cost = none ∨
      b.model = none) :
    validateArticlesCreate b = none ∧
    update_articles_partial_endpoint db id b now ce =
      (.error ⟨422, "Unprocessable Entity"⟩, db) := by
  have hv : validateArticlesCreate b = none := by
    rcases h with h | h | h | h | h | h | h | h | h | h | h | h <;>
      simp [validateArticlesCreate, h]
  exact ⟨hv, by simp [ update_articles_partial_endpoint, hv]⟩

theorem patch_schema_rejects_partial_c10_witness :
    validateArticlesCreate {} = none ∧
    update_articles_partial_endpoint db1 1 {} 200 none =
      (.error ⟨422, "Unprocessable Entity"⟩, db1) :=
  patch_schema_rejects_partial_c10 db1 1 {} 200 none (Or.inl rfl)

/-- C2 at its failing input: a PATCH on existing id 1 whose body supplies
no field at all is rejected by the `ArticlesCreate` validation of the
endpoint (the claim expects it to be accepted with all data fields left
unchanged), and the stored row's `update_date` does not advance (the claim
expects it to advance to now). -/
theorem empty_patch_rejected_c2 :
    update_articles_partial_endpoint db1 1 {} 500 none =
      (.error ⟨422, "Unprocessable Entity"⟩, db1) ∧
    (findById db1 1).map (fun r => r.update_date) = some 100 := by
  exact ⟨rfl, rfl⟩

/-- C7: a full update on an existing record overwrites every data field
named in the complete payload, resets `update_date` to now, leaves
`create_date` and `article_id` untouched, and persists the result; on a
missing identifier it yields the 404 NotFound and changes nothing. -/
theorem full_update_c7 (db : DB) (id : Nat) (p : ArticlesCreate)
    (now : Nat) :
    (∀ r, findById db id = some r →
      update_articles_full db id p now none =
        (.ok (fullUpdated p r now),
         { db with records := (replaceFirstById db.records id
            (fullUpdated p r now)) }) ∧
      (fullUpdated p r now).title = p.title ∧
      (fullUpdated p r now).link = p.link ∧
      (fullUpdated p r now).summary = p.summary ∧
      (fullUpdated p r now).reasons = p.reasons ∧
      (fullUpdated p r now).tags = p.tags ∧
      (fullUpdated p r now).relevancy_score =
        p.relevancy_score ∧
      (fullUpdated p r now).urgency_score =
        p.urgency_score ∧
      (fullUpdated p r now).overall_score =
        p.overall_score ∧
      (fullUpdated p r now).input_cost = p.input_cost ∧
      (fullUpdated p r now).output_cost =
        p.output_cost ∧
      (fullUpdated p r now).total_cost = p.total_cost ∧
      (fullUpdated p r now).model = p.model ∧
      (fullUpdated p r now).update_date = now ∧
      (fullUpdated p r now).create_date =
        r.create_date ∧
      (fullUpdated p r now).article_id =
        r.article_id) ∧
    (findById db id = none → ∀ ce,
      update_articles_full db id p now ce =
        (.error ⟨404, "articles with id " ++ toString id ++ " not found"⟩,
          db)) := by
  constructor
  · intro r hf
    refine ⟨by simp [update_articles_full, hf], rfl, rfl, rfl, rfl, rfl,
      rfl, rfl, rfl, rfl, rfl, rfl, rfl, rfl, rfl, rfl⟩
  · intro h ce
    simp [update_articles_full, h]

theorem full_update_c7_witness :
    update_articles_full db1 1 samplePayload 200 none =
      (.ok (fullUpdated samplePayload rec1 200),
       { db1 with records := (replaceFirstById db1.records 1
          (fullUpdated samplePayload rec1 200)) }) ∧
    (fullUpdated samplePayload rec1 200).create_date =
      rec1.create_date ∧
    (fullUpdated samplePayload rec1 200).update_date =
      200 ∧
    update_articles_full db1 2 samplePayload 200 none =
      (.error ⟨404, "articles with id " ++ toString 2 ++ " not found"⟩,
        db1) := by
  have h1 := (full_update_c7 db1 1 samplePayload 200).1 rec1 (by decide)
  have h2 := (full_update_c7 db1 2 samplePayload 200).2 (by decide) none
  exact ⟨h1.1, h1.2.2.2.2.2.2.2.2.2.2.2.2.2.2.1, h1.2.2.2.2.2.2.2.2.2.2.2.2.2.1,
    h2⟩

/-- C9: deleting a missing identifier yields the 404 NotFound and changes
nothing; deleting an existing record removes it permanently and returns
the confirmation naming the identifier, so the same delete issued again
yields NotFound. -/
theorem delete_twice_c9 (db : DB) (id : Nat) :
    (findById db id = none → ∀ ce, delete_articles db id ce =
      (.error ⟨404, "articles with id " ++ toString id ++ " not found"⟩,
        db)) ∧
    (findById db id ≠ none →
      db.records.Pairwise (fun a b => a.article_id ≠ b.article_id) →
      delete_articles db id none =
        (.ok ("articles with id " ++ toString id ++ " deleted successfully"),
          { db with records := removeFirstById db.records id }) ∧
      findById { db with records := removeFirstById db.records id } id =
        none ∧
      ∀ ce, delete_articles
          { db with records := removeFirstById db.records id } id ce =
        (.error ⟨404, "articles with id " ++ toString id ++ " not found"⟩,
          { db with records := removeFirstById db.records id })) := by
  constructor
  · intro h ce
    simp [delete_articles, h]
  · intro h hp
    rcases hf : findById db id with _ | r
    · exact absurd hf h
    · have hnone : findById
          { db with records := removeFirstById db.records id } id = none := by
        simp only [findById]
        exact find?_removeFirstById hp
      refine ⟨by simp [delete_articles, hf], hnone, ?_⟩
      intro ce
      simp [delete_articles, hnone]

theorem delete_twice_c9_witness :
    delete_articles db1 2 none =
      (.error ⟨404, "articles with id " ++ toString 2 ++ " not found"⟩,
        db1) ∧
    delete_articles db1 1 none =
      (.ok ("articles with id " ++ toString 1 ++ " deleted successfully"),
        { db1 with records := removeFirstById db1.records 1 }) ∧
    delete_articles { db1 with records := removeFirstById db1.records 1 }
        1 none =
      (.error ⟨404, "articles with id " ++ toString 1 ++ " not found"⟩,
        { db1 with records := removeFirstById db1.records 1 }) := by
  refine ⟨(delete_twice_c9 db1 2).1 (by decide) none, ?_, ?_⟩
  · exact ((delete_twice_c9 db1 1).2 (by decide) (by decide)).1
  · exact ((delete_twice_c9 db1 1).2 (by decide) (by decide)).2.2 none

/-- C4: for a valid page (≥ 1), limit (1..100) and sort request, the list
endpoint returns exactly the slice at offset `(page − 1) × limit` of length
at most `limit` of the record set filtered by `days_back` and then sorted
(the sorted set is a permutation of the filtered set); a page beyond the
end of the dataset yields the empty sequence, never an error. -/
theorem list_pagination_c4 (hasattrA : String → Bool) (emsg : String)
    (db : DB) (page limit : Nat)
    (days_back : Option Nat) (sort_by sort_order : Option String) (now : Nat)
    (hp : 1 ≤ page) (hl1 : 1 ≤ limit) (hl2 : limit ≤ 100)
    (hattr : ∀ c, articlesColumns.contains c = true → hasattrA c = true)
    (hs : ∀ col, sort_by = some col → articlesColumns.contains col = true) :
    list_articles hasattrA emsg db page limit days_back sort_by sort_order
        now =
      .ok (((listFilteredSorted db days_back sort_by sort_order now).drop
        ((page - 1) * limit)).take limit) ∧
    (((listFilteredSorted db days_back sort_by sort_order now).drop
        ((page - 1) * limit)).take limit).length ≤ limit ∧
    ((listFilteredSorted db days_back sort_by sort_order now).length ≤
        (page - 1) * limit →
      ((listFilteredSorted db days_back sort_by sort_order now).drop
        ((page - 1) * limit)).take limit = []) ∧
    List.Perm (listFilteredSorted db days_back sort_by sort_order now)
      (daysFilter db days_back now) := by
  refine ⟨?_, List.length_take_le _ _, ?_, ?_⟩
  · cases sort_by with
    | none => rfl
    | some col =>
      have hc := hs col rfl
      have hm : col ∈ articlesColumns := by simpa using hc
      simp [list_articles, hattr col hc, hm]
  · intro h
    rw [List.drop_eq_nil_of_le h, List.take_nil]
  · cases sort_by with
    | none => exact List.perm_insertionSort _ _
    | some col =>
      simp only [listFilteredSorted]
      by_cases ho : (sort_order == some "asc") = true
      · simp only [ho, if_true, sortAscBy]
        exact List.perm_insertionSort _ _
      · simp only [ho, if_false, sortDescBy]
        exact List.perm_insertionSort _ _

theorem list_pagination_c4_witness :
    list_articles articlesHasattr "e" db1 5 10 none none none 200 =
      .ok (((listFilteredSorted db1 none none none 200).drop
        ((5 - 1) * 10)).take 10) ∧
    (((listFilteredSorted db1 none none none 200).drop
        ((5 - 1) * 10)).take 10).length ≤ 10 ∧
    ((listFilteredSorted db1 none none none 200).length ≤ (5 - 1) * 10 →
      ((listFilteredSorted db1 none none none 200).drop
        ((5 - 1) * 10)).take 10 = []) ∧
    List.Perm (listFilteredSorted db1 none none none 200)
      (daysFilter db1 none 200) :=
  list_pagination_c4 articlesHasattr "e" db1 5 10 none none none 200
    (by decide) (by decide) (by decide)
    (fun c hc => by simp only [articlesHasattr, hc, Bool.true_or])
    (fun col h => nomatch h)

/-- C5 counterexample: `sort_by = "metadata"` names no field of the model,
yet `hasattr(Articles, "metadata")` is true (`DeclarativeBase` supplies
it), so the handler passes the check, the subsequent `order_by` raises
inside the `try`, and the caller sees the generic 500 InternalError — not
the 400 ValidationError the claim asserts for every nonexistent field
name. -/
theorem sort_by_validation_counterexample_c5 :
    list_articles articlesHasattr "e" db1 1 10 none (some "metadata") none
        0 =
      .error ⟨500, "Internal server error: " ++ "e"⟩ ∧
    list_articles articlesHasattr "e" db1 1 10 none (some "metadata") none
        0 ≠
      .error ⟨400, "Invalid sort_by field: " ++ "metadata"⟩ := by
  constructor
  · rfl
  · intro h
    exact absurd (congrArg (fun x => match x with
      | Except.error e => e.status_code
      | Except.ok _ => 0) h) (by decide)

/-- C5 amended: a `sort_by` that is not an attribute of the model class
yields the 400 ValidationError; a `sort_by` naming an existing non-column
attribute (such as `metadata`) slips past the `hasattr` check and the
`order_by` failure is wrapped into a 500 InternalError instead; omitting
`sort_by` yields `create_date` descending ordering; a `sort_by` naming a
mapped column with `sort_order` anything other than "asc" yields
descending ordering on that column. -/
theorem sort_by_validation_c5 (hasattrA : String → Bool) (emsg : String)
    (db : DB) (page limit : Nat)
    (days_back : Option Nat) (sort_order : Option String) (now : Nat) :
    (∀ col, hasattrA col = false →
      list_articles hasattrA emsg db page limit days_back (some col)
          sort_order now =
        .error ⟨400, "Invalid sort_by field: " ++ col⟩) ∧
    (∀ col, hasattrA col = true → articlesColumns.contains col = false →
      list_articles hasattrA emsg db page limit days_back (some col)
          sort_order now =
        .error ⟨500, "Internal server error: " ++ emsg⟩) ∧
    (list_articles hasattrA emsg db page limit days_back none sort_order
        now =
      .ok (((sortDescBy "create_date" (daysFilter db days_back now)).drop
        ((page - 1) * limit)).take limit)) ∧
    (∀ col, hasattrA col = true → articlesColumns.contains col = true →
      sort_order ≠ some "asc" →
      list_articles hasattrA emsg db page limit days_back (some col)
          sort_order now =
        .ok (((sortDescBy col (daysFilter db days_back now)).drop
          ((page - 1) * limit)).take limit)) := by
  refine ⟨?_, ?_, rfl, ?_⟩
  · intro col h
    simp [list_articles, h]
  · intro col ha h
    have hm : col ∉ articlesColumns := by simpa using h
    simp [list_articles, ha, hm]
  · intro col ha h ho
    have ho' : (sort_order == some "asc") = false := by
      cases sort_order with
      | none => rfl
      | some s => simpa using ho
    have hm : col ∈ articlesColumns := by simpa using h
    simp [list_articles, ha, hm, listFilteredSorted, ho']

theorem sort_by_validation_c5_witness :
    (list_articles articlesHasattr "e" db1 1 10 none (some "nope") none 0 =
      .error ⟨400, "Invalid sort_by field: " ++ "nope"⟩) ∧
    (list_articles articlesHasattr "e" db1 1 10 none (some "registry")
        none 0 =
      .error ⟨500, "Internal server error: " ++ "e"⟩) ∧
    (list_articles articlesHasattr "e" db1 1 10 none none none 0 =
      .ok (((sortDescBy "create_date" (daysFilter db1 none 0)).drop
        ((1 - 1) * 10)).take 10)) ∧
    (list_articles articlesHasattr "e" db1 1 10 none (some "title")
        (some "desc") 0 =
      .ok (((sortDescBy "title" (daysFilter db1 none 0)).drop
        ((1 - 1) * 10)).take 10)) := by
  refine ⟨(sort_by_validation_c5 articlesHasattr "e" db1 1 10 none none
      0).1 "nope" (by decide),
    (sort_by_validation_c5 articlesHasattr "e" db1 1 10 none none
      0).2.1 "registry" (by decide) (by decide),
    (sort_by_validation_c5 articlesHasattr "e" db1 1 10 none none 0).2.2.1,
    ?_⟩
  exact (sort_by_validation_c5 articlesHasattr "e" db1 1 10 none
    (some "desc") 0).2.2.2 "title" (by decide) (by decide) (by decide)

/-- C3: the search endpoint returns exactly the rows satisfying the
conjunction of one match condition per supplied field — exact equality for
scalar fields, case-insensitive substring containment for `tags` — plus,
exactly when no `create_date` criterion is supplied, the implicit
trailing-24-hour condition; a supplied `create_date` criterion replaces
that default entirely (with its own exact-equality condition). -/
theorem search_semantics_c3 (db : DB) (s : ArticlesSearch) (now : Nat)
    (r : ArticleRecord) :
    search_articles db s now none =
      .ok (db.records.filter (matchesSearch s now)) ∧
    (s.create_date = none →
      (matchesSearch s now r = true ↔
        (now - 86400 ≤ r.create_date ∧ suppliedFieldConds s r))) ∧
    (∀ v, s.create_date = some v →
      (matchesSearch s now r = true ↔
        (r.create_date = v ∧ suppliedFieldConds s r))) := by
  refine ⟨rfl, ?_, ?_⟩
  · intro h
    simp only [matchesSearch, h, Bool.and_eq_true, optCond_eq_true,
      suppliedFieldConds, decide_eq_true_eq, beq_iff_eq, and_assoc]
  · intro v h
    simp only [matchesSearch, h, Bool.and_eq_true, optCond_eq_true,
      suppliedFieldConds, decide_eq_true_eq, beq_iff_eq, and_assoc]

theorem search_semantics_c3_witness :
    search_articles db1 ({ tags := some "Ai" } : ArticlesSearch) 1000 none =
      .ok (db1.records.filter
        (matchesSearch ({ tags := some "Ai" } : ArticlesSearch) 1000)) ∧
    (({ tags := some "Ai" } : ArticlesSearch).create_date = none →
      (matchesSearch ({ tags := some "Ai" } : ArticlesSearch) 1000 rec1 =
          true ↔
        (1000 - 86400 ≤ rec1.create_date ∧
          suppliedFieldConds ({ tags := some "Ai" } : ArticlesSearch)
            rec1))) ∧
    (∀ v, ({ tags := some "Ai" } : ArticlesSearch).create_date = some v →
      (matchesSearch ({ tags := some "Ai" } : ArticlesSearch) 1000 rec1 =
          true ↔
        (rec1.create_date = v ∧
          suppliedFieldConds ({ tags := some "Ai" } : ArticlesSearch)
            rec1))) :=
  search_semantics_c3 db1 ({ tags := some "Ai" } : ArticlesSearch) 1000 rec1

/-- C6: NotFound (404) and ValidationError (400) conditions are re-raised
unchanged with the stored state untouched; an injected persistence failure
in a mutation handler rolls the in-flight write back (state unchanged) and
is wrapped into a 500 InternalError carrying the underlying message; the
read-only search endpoint wraps failures the same way; successful
operations never raise. -/
theorem error_propagation_c6 (hasattrA : String → Bool) (emsg : String)
    (db : DB) (id : Nat) (p : ArticlesCreate)
    (pd : ArticlesPartial) (s : ArticlesSearch) (t1 t2 now : Nat)
    (msg : String) :
    (create_record db p t1 t2 (some msg) =
      (.error ⟨500, "Internal server error: " ++ msg⟩, db)) ∧
    (findById db id ≠ none →
      update_articles_full db id p now (some msg) =
        (.error ⟨500, "Internal server error: " ++ msg⟩, db)) ∧
    (findById db id ≠ none →
      update_articles_partial db id pd now (some msg) =
        (.error ⟨500, "Internal server error: " ++ msg⟩, db)) ∧
    (findById db id ≠ none →
      delete_articles db id (some msg) =
        (.error ⟨500, "Internal server error: " ++ msg⟩, db)) ∧
    (search_articles db s now (some msg) =
      .error ⟨500, "Internal server error: " ++ msg⟩) ∧
    (∀ j, findById db j = none → ∀ ce,
      update_articles_full db j p now ce =
        (.error ⟨404, "articles with id " ++ toString j ++ " not found"⟩,
          db) ∧
      update_articles_partial db j pd now ce =
        (.error ⟨404, "articles with id " ++ toString j ++ " not found"⟩,
          db) ∧
      delete_articles db j ce =
        (.error ⟨404, "articles with id " ++ toString j ++ " not found"⟩,
          db) ∧
      get_articles_by_id db j =
        .error ⟨404, "articles with id " ++ toString j ++ " not found"⟩) ∧
    (∀ col page limit, hasattrA col = false →
      list_articles hasattrA emsg db page limit none (some col) none now =
        .error ⟨400, "Invalid sort_by field: " ++ col⟩) ∧
    ((create_record db p t1 t2 none).1 = .ok (mkArticle db.nextId p t1 t2)) ∧
    (∀ r0, findById db id = some r0 →
      (update_articles_full db id p now none).1 =
        .ok (fullUpdated p r0 now) ∧
      ( update_articles_partial db id pd now none).1 =
        .ok (partialUpdated pd r0 now) ∧
      (delete_articles db id none).1 =
        .ok ("articles with id " ++ toString id ++ " deleted successfully") ∧
      get_articles_by_id db id = .ok r0) ∧
    (∃ l, search_articles db s now none = .ok l) := by
  refine ⟨rfl, ?_, ?_, ?_, rfl, ?_, ?_, rfl, ?_, ⟨_, rfl⟩⟩
  · intro h
    rcases hf : findById db id with _ | r0
    · exact absurd hf h
    · simp [update_articles_full, hf]
  · intro h
    rcases hf : findById db id with _ | r0
    · exact absurd hf h
    · simp [ update_articles_partial, hf]
  · intro h
    rcases hf : findById db id with _ | r0
    · exact absurd hf h
    · simp [delete_articles, hf]
  · intro j hj ce
    refine ⟨?_, ?_, ?_, ?_⟩ <;>
      simp [update_articles_full, update_articles_partial, delete_articles,
        get_articles_by_id, hj]
  · intro col page limit h
    simp [list_articles, h]
  · intro r0 hf
    refine ⟨?_, ?_, ?_, ?_⟩ <;>
      simp [update_articles_full, update_articles_partial, delete_articles,
        get_articles_by_id, hf]

theorem error_propagation_c6_witness :
    (create_record db1 samplePayload 10 20 (some "boom") =
      (.error ⟨500, "Internal server error: " ++ "boom"⟩, db1)) ∧
    (update_articles_full db1 1 samplePayload 300 (some "boom") =
      (.error ⟨500, "Internal server error: " ++ "boom"⟩, db1)) ∧
    ( update_articles_partial db1 1 {} 300 (some "boom") =
      (.error ⟨500, "Internal server error: " ++ "boom"⟩, db1)) ∧
    (delete_articles db1 1 (some "boom") =
      (.error ⟨500, "Internal server error: " ++ "boom"⟩, db1)) ∧
    (search_articles db1 {} 300 (some "boom") =
      .error ⟨500, "Internal server error: " ++ "boom"⟩) ∧
    (update_articles_full db1 2 samplePayload 300 none =
      (.error ⟨404, "articles with id " ++ toString 2 ++ " not found"⟩,
        db1)) ∧
    (list_articles articlesHasattr "e" db1 1 10 none (some "nope") none
        300 =
      .error ⟨400, "Invalid sort_by field: " ++ "nope"⟩) ∧
    ((create_record db1 samplePayload 10 20 none).1 =
      .ok (mkArticle db1.nextId samplePayload 10 20)) ∧
    ((update_articles_full db1 1 samplePayload 300 none).1 =
      .ok (fullUpdated samplePayload rec1 300)) ∧
    (∃ l, search_articles db1 {} 300 none = .ok l) := by
  have h := error_propagation_c6 articlesHasattr "e" db1 1 samplePayload
    {} {} 10 20 300 "boom"
  exact ⟨h.1, h.2.1 (by decide), h.2.2.1 (by decide), h.2.2.2.1 (by decide),
    h.2.2.2.2.1, (h.2.2.2.2.2.1 2 (by decide) none).1,
    h.2.2.2.2.2.2.1 "nope" 1 10 (by decide), h.2.2.2.2.2.2.2.1,
    (h.2.2.2.2.2.2.2.2.1 rec1 (by decide)).1, h.2.2.2.2.2.2.2.2.2⟩

/-- C8: every stored row satisfies `create_date ≤ update_date`; the
invariant is established by create (whose two clock reads satisfy
`t1 ≤ t2`) and preserved by full and partial update, which set
`update_date` to the current instant and never touch any row's
`create_date` (or `article_id`). -/
theorem timestamps_invariant_c8 (db : DB) (p : ArticlesCreate)
    (pd : ArticlesPartial) (id t1 t2 now : Nat) (ce : Option String) :
    (timestampInv db → t1 ≤ t2 →
      timestampInv (create_record db p t1 t2 ce).2) ∧
    (timestampInv db → (∀ r ∈ db.records, r.create_date ≤ now) →
      timestampInv (update_articles_full db id p now ce).2) ∧
    (timestampInv db → (∀ r ∈ db.records, r.create_date ≤ now) →
      timestampInv ( update_articles_partial db id pd now ce).2) ∧
    ((update_articles_full db id p now ce).2.records.map
        (fun r => (r.article_id, r.create_date)) =
      db.records.map (fun r => (r.article_id, r.create_date))) ∧
    (( update_articles_partial db id pd now ce).2.records.map
        (fun r => (r.article_id, r.create_date)) =
      db.records.map (fun r => (r.article_id, r.create_date))) := by
  refine ⟨?_, ?_, ?_, ?_, ?_⟩
  · intro hinv hmono
    cases ce with
    | some msg => exact hinv
    | none =>
      intro r hr
      simp only [create_record, List.mem_append, List.mem_singleton] at hr
      rcases hr with h | h
      · exact hinv r h
      · subst h
        exact hmono
  · intro hinv hb
    rcases hf : findById db id with _ | r0
    · simp only [update_articles_full, hf]
      exact hinv
    · cases ce with
      | some msg =>
        simp only [update_articles_full, hf]
        exact hinv
      | none =>
        simp only [update_articles_full, hf]
        intro r hr
        rcases mem_replaceFirstById hr with h | h
        · subst h
          exact hb r0 (List.mem_of_find?_eq_some hf)
        · exact hinv r h
  · intro hinv hb
    rcases hf : findById db id with _ | r0
    · simp only [ update_articles_partial, hf]
      exact hinv
    · cases ce with
      | some msg =>
        simp only [ update_articles_partial, hf]
        exact hinv
      | none =>
        simp only [ update_articles_partial, hf]
        intro r hr
        rcases mem_replaceFirstById hr with h | h
        · subst h
          exact hb r0 (List.mem_of_find?_eq_some hf)
        · exact hinv r h
  · rcases hf : findById db id with _ | r0
    · simp only [update_articles_full, hf]
    · cases ce with
      | some msg => simp only [update_articles_full, hf]
      | none =>
        simp only [update_articles_full, hf]
        refine map_replaceFirstById _ _ _ _ ?_
        intro r hr
        have hr0 : r = r0 := by
          have hf' : db.records.find? (fun x => x.article_id == id) =
              some r0 := hf
          rw [hf'] at hr
          exact (Option.some.inj hr).symm
        subst hr0
        rfl
  · rcases hf : findById db id with _ | r0
    · simp only [ update_articles_partial, hf]
    · cases ce with
      | some msg => simp only [ update_articles_partial, hf]
      | none =>
        simp only [ update_articles_partial, hf]
        refine map_replaceFirstById _ _ _ _ ?_
        intro r hr
        have hr0 : r = r0 := by
          have hf' : db.records.find? (fun x => x.article_id == id) =
              some r0 := hf
          rw [hf'] at hr
          exact (Option.some.inj hr).symm
        subst hr0
        rfl

theorem timestamps_invariant_c8_witness :
    timestampInv (create_record db1 samplePayload 10 20 none).2 ∧
    timestampInv (update_articles_full db1 1 samplePayload 300 none).2 ∧
    timestampInv ( update_articles_partial db1 1 {} 300 none).2 ∧
    ((update_articles_full db1 1 samplePayload 300 none).2.records.map
        (fun r => (r.article_id, r.create_date)) =
      db1.records.map (fun r => (r.article_id, r.create_date))) ∧
    (( update_articles_partial db1 1 {} 300 none).2.records.map
        (fun r => (r.article_id, r.create_date)) =
      db1.records.map (fun r => (r.article_id, r.create_date))) := by
  have h := timestamps_invariant_c8 db1 samplePayload {} 1 10 20 300 none
  have hinv : timestampInv db1 := by
    simp only [timestampInv]
    decide
  exact ⟨h.1 hinv (by decide), h.2.1 hinv (by decide),
    h.2.2.1 hinv (by decide), h.2.2.2.1, h.2.2.2.2⟩

end ArticlesService
